import Mathlib

/-!
# FireDetection: the sensor-to-decision pipeline of `src/main.cpp`

A shallow embedding of `setup`, `runInference` and `loop`.

Modelling conventions.

* `float` values are rationals (`ℚ`). Where a `float` is converted to an integer
  (QUANTIZE INPUTS) every operation is rounded to single precision by `binary32`,
  because there the rounding decides which byte is stored. The real-valued quantities
  (standardized inputs, probability, confidence) are taken without rounding error.
* `int8_t` and `int32_t` values are integers (`Int`); a narrowing conversion and the
  32-bit subtraction reduce modulo `2^8` resp. `2^32` explicitly.
* Pointers are `Option`s, `nullptr` being `none`.
* The TensorFlow Lite Micro interpreter is an opaque collaborator: a value of
  `MicroInterpreter` fixes what `AllocateTensors` and `Invoke` answer.
* Serial output is not modelled; what a call of `runInference` computes and how far it
  gets is recorded in an `Outcome`.
-/

namespace FireDetection

/-! ## Machine integers -/

/-- The range of `int8_t`. -/
def isInt8 (n : Int) : Prop := -128 ≤ n ∧ n ≤ 127

instance (n : Int) : Decidable (isInt8 n) := by
  unfold isInt8
  infer_instance

/-- Two's-complement reduction to 8 bits (how an `int` narrows to `int8_t`). -/
def wrapInt8 (n : Int) : Int := (n + 128) % 256 - 128

/-- Two's-complement reduction to 32 bits (`int` arithmetic of the targets). -/
def wrapInt32 (n : Int) : Int := (n + 2147483648) % 4294967296 - 2147483648

/-- Conversion of a floating value to an integer discards the fractional part
(truncation toward zero). -/
def truncToZero (x : ℚ) : Int := if 0 ≤ x then ⌊x⌋ else ⌈x⌉

/-- The cast `(int8_t) x` of a floating value: truncation toward zero, then narrowing
to 8 bits. When the truncated value is outside `[-128, 127]` the C++ standard leaves the
conversion undefined; the model takes the two's-complement narrowing that the usual
targets perform. -/
def castInt8 (x : ℚ) : Int := wrapInt8 (truncToZero x)

/-! ## Single-precision rounding -/

/-- Rounding to the nearest integer, ties to the even one. -/
def roundHalfEven (y : ℚ) : Int :=
  if y - ⌊y⌋ < 1 / 2 then ⌊y⌋
  else if 1 / 2 < y - ⌊y⌋ then ⌊y⌋ + 1
  else if ⌊y⌋ % 2 = 0 then ⌊y⌋ else ⌊y⌋ + 1

/-- The exponent `e` with `2^e ≤ |x| < 2^(e+1)`, not below the smallest normal exponent
`-126` (subnormal numbers share it). -/
def binade (x : ℚ) : Int := max (Int.log 2 |x|) (-126)

/-- The spacing of single-precision numbers around `x`: 24 significant bits. -/
def ulp (x : ℚ) : ℚ := 2 ^ (binade x - 23)

/-- The single-precision (`float`) result of an operation whose exact result is `x`:
round to nearest, ties to even. Overflow to infinity (`|x| ≥ 2^128`) is not modelled. -/
def binary32 (x : ℚ) : ℚ := (roundHalfEven (x / ulp x) : ℚ) * ulp x

/-! ## TensorFlow Lite Micro, as far as `main.cpp` uses it -/

/-- Status codes of the library: `kTfLiteOk` is `0`, every other value is a failure. -/
abbrev TfLiteStatus := Nat

/-- The success status. -/
def kTfLiteOk : TfLiteStatus := 0

/-- The generic failure status. -/
def kTfLiteError : TfLiteStatus := 1

/-- The schema version the library supports. -/
def TFLITE_SCHEMA_VERSION : Nat := 3

/-- `TfLiteQuantizationParams`: `float scale; int32_t zero_point;`. -/
structure TfLiteQuantizationParams where
  scale : ℚ
  zero_point : Int
deriving DecidableEq

/-- A `TfLiteTensor` with `n` int8 elements: its `params` and its `data.int8` buffer. -/
structure TfLiteTensor (n : Nat) where
  params : TfLiteQuantizationParams
  int8 : Fin n → Int

/-- The flatbuffer model `g_model`; `setup` only inspects its schema version. -/
structure Model where
  version : Nat
deriving DecidableEq

/-- The interpreter built over the model: the status `AllocateTensors` answers, the
tensors `input(0)` and `output(0)`, and `Invoke`, which maps the content of the input
buffer to a status and the content of the output buffer after the call. -/
structure MicroInterpreter where
  AllocateTensors : TfLiteStatus
  input0 : TfLiteTensor 5
  output0 : TfLiteTensor 1
  Invoke : (Fin 5 → Int) → TfLiteStatus × (Fin 1 → Int)

/-! ## Globals -/

/-- Scaling parameters: per-feature mean. -/
def mean : Fin 5 → ℚ := ![24.5, 52.3, 405.0, 0.012, 1010.5]

/-- Scaling parameters: per-feature standard deviation. -/
def std_dev : Fin 5 → ℚ := ![2.1, 5.0, 50.0, 0.005, 10.0]

/-- The decision threshold. -/
def fire_threshold : ℚ := 0.45

/-- The pointer globals `interpreter`, `input` and `output`; all start as `nullptr`. -/
structure Globals where
  interpreter : Option MicroInterpreter
  input : Option (TfLiteTensor 5)
  output : Option (TfLiteTensor 1)

/-! ## setup -/

/-- `setup()`: returns early, leaving the remaining pointers null, when the model's schema
version differs from `TFLITE_SCHEMA_VERSION` or when `AllocateTensors` fails. -/
def setup (g_model : Model) (static_interpreter : MicroInterpreter) : Globals :=
  if g_model.version ≠ TFLITE_SCHEMA_VERSION then
    ⟨none, none, none⟩
  else if static_interpreter.AllocateTensors ≠ kTfLiteOk then
    ⟨some static_interpreter, none, none⟩
  else
    ⟨some static_interpreter, some static_interpreter.input0, some static_interpreter.output0⟩

/-! ## runInference -/

/-- The loop `for (int i = 0; i < 5; i++) a[i] = body(i);` run on the array `a`. -/
def forEachIndex {α : Type} (body : Fin 5 → α) (a : Fin 5 → α) : Fin 5 → α :=
  (List.finRange 5).foldl (fun acc i => Function.update acc i (body i)) a

/-- APPLY STANDARD SCALER: `scaled_inputs[i] = (raw_inputs[i] - mean[i]) / std_dev[i]`.
The local array starts uninitialised; every slot is assigned. -/
def applyStandardScaler (raw_inputs : Fin 5 → ℚ) : Fin 5 → ℚ :=
  forEachIndex (fun i => (raw_inputs i - mean i) / std_dev i) (fun _ => 0)

/-- The body of QUANTIZE INPUTS:
`int8_t q = (int8_t)(scaled_inputs[i] / input->params.scale + input->params.zero_point)`.
The quotient is a `float` division, the zero point is converted to `float`, the sum is a
`float` addition, and the cast truncates the `float` sum. -/
def quantize (v : ℚ) (params : TfLiteQuantizationParams) : Int :=
  castInt8 (binary32 (binary32 (v / params.scale) + binary32 (params.zero_point : ℚ)))

/-- QUANTIZE INPUTS: the loop storing `q` into `input->data.int8[i]`. -/
def quantizeInputs (scaled_inputs : Fin 5 → ℚ) (input : TfLiteTensor 5) : Fin 5 → Int :=
  forEachIndex (fun i => quantize (scaled_inputs i) input.params) input.int8

/-- DEQUANTIZE OUTPUT: `(y_q - output->params.zero_point) * output->params.scale`
(the difference in 32-bit `int` arithmetic), then the two clamping statements. -/
def dequantizeOutput (y_q : Int) (params : TfLiteQuantizationParams) : ℚ :=
  let fire_probability : ℚ := (wrapInt32 (y_q - params.zero_point) : ℚ) * params.scale
  let fire_probability := if fire_probability < 0 then 0 else fire_probability
  if fire_probability > 1 then 1 else fire_probability

/-- CALCULATE ADDITIONAL METRICS: the larger of the two class probabilities. -/
def confidenceOf (fire_probability : ℚ) : ℚ :=
  let no_fire_probability := 1 - fire_probability
  if fire_probability > no_fire_probability then fire_probability else no_fire_probability

/-- The two results `runInference` reports. -/
inductive Detection where
  | FIRE
  | NO_FIRE
deriving DecidableEq, Repr

/-- DETECTION RESULT: `if (fire_probability > fire_threshold)`. -/
def detectionResult (fire_probability threshold : ℚ) : Detection :=
  if fire_probability > threshold then Detection.FIRE else Detection.NO_FIRE

/-- What a completed cycle reports. -/
structure Prediction where
  fire_probability : ℚ
  no_fire_probability : ℚ
  confidence : ℚ
  result : Detection
deriving DecidableEq

/-- Everything `runInference` does after a successful `Invoke`, from the output value
`y_q = output->data.int8[0]`. -/
def predict (y_q : Int) (params : TfLiteQuantizationParams) : Prediction :=
  let fire_probability := dequantizeOutput y_q params
  ⟨fire_probability, 1 - fire_probability, confidenceOf fire_probability,
    detectionResult fire_probability fire_threshold⟩

/-- How far a call of `runInference` gets.

* `nullInput`: QUANTIZE INPUTS was reached and executed with `input == nullptr`;
  evaluating `input->params` and storing through `input->data` is undefined behaviour,
  and no statement of the source keeps the call from going on to `Invoke`.
* `nullInterpreter`: the input buffer was written and `interpreter->Invoke()` was
  reached with `interpreter == nullptr`.
* `invokeFailed`: `Invoke` answered a status other than `kTfLiteOk`; the call reports
  the failure and returns.
* `nullOutput`: DEQUANTIZE OUTPUT was reached with `output == nullptr`.
* `predicted`: the cycle completed. -/
inductive Outcome where
  | nullInput (scaled_inputs : Fin 5 → ℚ)
  | nullInterpreter (scaled_inputs : Fin 5 → ℚ) (data : Fin 5 → Int)
  | invokeFailed (scaled_inputs : Fin 5 → ℚ) (data : Fin 5 → Int)
  | nullOutput (scaled_inputs : Fin 5 → ℚ) (data : Fin 5 → Int)
  | predicted (scaled_inputs : Fin 5 → ℚ) (data : Fin 5 → Int) (p : Prediction)

/-- The standardized vector a call computed. -/
def Outcome.scaled_inputs : Outcome → Fin 5 → ℚ
  | .nullInput s => s
  | .nullInterpreter s _ => s
  | .invokeFailed s _ => s
  | .nullOutput s _ => s
  | .predicted s _ _ => s

/-- The content of the input buffer after QUANTIZE INPUTS, when the call got there
with a non-null `input`. -/
def Outcome.inputData : Outcome → Option (Fin 5 → Int)
  | .nullInput _ => none
  | .nullInterpreter _ d => some d
  | .invokeFailed _ d => some d
  | .nullOutput _ d => some d
  | .predicted _ d _ => some d

/-- The probability, confidence and decision of a call, when it produced them. -/
def Outcome.prediction : Outcome → Option Prediction
  | .predicted _ _ p => some p
  | _ => none

/-- `runInference(temperature, humidity, co2, hydrogen, pressure, scenario)`. -/
def runInference (g : Globals) (temperature humidity co2 hydrogen pressure : ℚ) : Outcome :=
  let raw_inputs : Fin 5 → ℚ := ![temperature, humidity, co2, hydrogen, pressure]
  let scaled_inputs := applyStandardScaler raw_inputs
  match g.input with
  | none => .nullInput scaled_inputs
  | some input =>
    let data := quantizeInputs scaled_inputs input
    match g.interpreter with
    | none => .nullInterpreter scaled_inputs data
    | some interpreter =>
      if (interpreter.Invoke data).1 ≠ kTfLiteOk then
        .invokeFailed scaled_inputs data
      else
        match g.output with
        | none => .nullOutput scaled_inputs data
        | some output =>
          let y_q := (interpreter.Invoke data).2 0
          .predicted scaled_inputs data (predict y_q output.params)

/-! ## loop -/

/-- `loop()`: the six canned scenarios, in order. -/
def loop (g : Globals) : List Outcome :=
  [ runInference g 20.0 45.0 380.0 0.008 1013.0,
    runInference g 45.0 30.0 450.0 0.05 1010.0,
    runInference g 35.0 60.0 800.0 0.15 1008.0,
    runInference g 80.0 15.0 1200.0 0.30 990.0,
    runInference g 5.0 80.0 350.0 0.002 1020.0,
    runInference g 32.0 55.0 550.0 0.08 1012.0 ]

/-- The Arduino runtime calls `setup()` once and then `loop()` again and again; `passes`
is the number of passes of `loop()` observed. The globals are not reassigned after
`setup`, and every cycle overwrites all five slots of the input buffer. -/
def program (g_model : Model) (static_interpreter : MicroInterpreter) : Nat → List Outcome
  | 0 => []
  | passes + 1 =>
    program g_model static_interpreter passes ++ loop (setup g_model static_interpreter)

/-! ## The encode rule as the specification words it -/

/-- Rounding to the nearest integer, halves away from zero (the C function `round`). -/
def roundNearest (x : ℚ) : Int := if 0 ≤ x then ⌊x + 1 / 2⌋ else ⌈x - 1 / 2⌉

/-- The specification's encode rule: `q = round(v / scale) + zero_point`. -/
def specEncode (v : ℚ) (params : TfLiteQuantizationParams) : Int :=
  roundNearest (v / params.scale) + params.zero_point

/-! ## Auxiliary facts -/

theorem forEachIndex_eq {α : Type} (body a : Fin 5 → α) : forEachIndex body a = body := by
  funext i
  fin_cases i <;> rfl

theorem applyStandardScaler_apply (raw_inputs : Fin 5 → ℚ) (i : Fin 5) :
    applyStandardScaler raw_inputs i = (raw_inputs i - mean i) / std_dev i := by
  unfold applyStandardScaler
  rw [forEachIndex_eq]

theorem quantizeInputs_apply (scaled_inputs : Fin 5 → ℚ) (input : TfLiteTensor 5) (i : Fin 5) :
    quantizeInputs scaled_inputs input i = quantize (scaled_inputs i) input.params := by
  unfold quantizeInputs
  rw [forEachIndex_eq]

theorem wrapInt8_of_isInt8 {n : Int} (h : isInt8 n) : wrapInt8 n = n := by
  unfold isInt8 at h
  unfold wrapInt8
  omega

theorem wrapInt32_of_small {n : Int} (h1 : -2147483648 ≤ n) (h2 : n < 2147483648) :
    wrapInt32 n = n := by
  unfold wrapInt32
  omega

theorem wrapInt32_sub_of_isInt8 {a b : Int} (ha : isInt8 a) (hb : isInt8 b) :
    wrapInt32 (a - b) = a - b := by
  unfold isInt8 at ha hb
  apply wrapInt32_of_small <;> omega

theorem truncToZero_between {t : ℚ} {a b : Int} (ha : (a : ℚ) ≤ t) (hb : t ≤ (b : ℚ)) :
    a ≤ truncToZero t ∧ truncToZero t ≤ b := by
  have hfa : a ≤ ⌊t⌋ := Int.le_floor.mpr ha
  have hcb : ⌈t⌉ ≤ b := Int.ceil_le.mpr hb
  have hfc : ⌊t⌋ ≤ ⌈t⌉ := Int.floor_le_ceil t
  unfold truncToZero
  split_ifs <;> constructor <;> omega

theorem floor_le_roundHalfEven (y : ℚ) : ⌊y⌋ ≤ roundHalfEven y := by
  unfold roundHalfEven
  split_ifs <;> omega

theorem roundHalfEven_le_ceil (y : ℚ) : roundHalfEven y ≤ ⌈y⌉ := by
  have hfc : ⌊y⌋ ≤ ⌈y⌉ := Int.floor_le_ceil y
  unfold roundHalfEven
  split_ifs with h1 h2 h3
  · exact hfc
  · have : ⌊y⌋ < ⌈y⌉ := Int.lt_ceil.mpr (by linarith)
    omega
  · exact hfc
  · have : ⌊y⌋ < ⌈y⌉ := Int.lt_ceil.mpr (by linarith)
    omega

theorem binade_of_bounds {x : ℚ} {e : Int} (hlo : (2 : ℚ) ^ e ≤ |x|)
    (hhi : |x| < (2 : ℚ) ^ (e + 1)) (he : -126 ≤ e) : binade x = e := by
  have hpos : 0 < |x| := lt_of_lt_of_le (by positivity) hlo
  have h1 : e ≤ Int.log 2 |x| :=
    (Int.zpow_le_iff_le_log (by norm_num) hpos).mp (by exact_mod_cast hlo)
  have h2 : Int.log 2 |x| < e + 1 :=
    (Int.lt_zpow_iff_log_lt (by norm_num) hpos).mp (by exact_mod_cast hhi)
  unfold binade
  omega

theorem binade_le_of_abs_lt {x : ℚ} (h : |x| < 16777216) : binade x ≤ 23 := by
  unfold binade
  apply max_le _ (by norm_num)
  rcases (abs_nonneg x).eq_or_lt with h0 | hpos
  · rw [← h0, Int.log_of_right_le_zero 2 le_rfl]
    norm_num
  · have : Int.log 2 |x| < 24 :=
      (Int.lt_zpow_iff_log_lt (by norm_num) hpos).mp (by norm_num; exact h)
    omega

theorem ulp_eq_inv_pow {x : ℚ} (h : |x| < 16777216) :
    ∃ k : ℕ, ulp x = ((2 : ℚ) ^ k)⁻¹ := by
  have hb := binade_le_of_abs_lt h
  refine ⟨(23 - binade x).toNat, ?_⟩
  unfold ulp
  have : binade x - 23 = -(((23 - binade x).toNat : ℕ) : Int) := by
    rw [Int.toNat_of_nonneg (by omega)]
    ring
  rw [this, zpow_neg, zpow_natCast]

/-- Below `2^24` the integers are single-precision numbers, so rounding never leaves the
interval between the floor and the ceiling of the exact value. -/
theorem binary32_bracket {x : ℚ} (h : |x| < 16777216) :
    (⌊x⌋ : ℚ) ≤ binary32 x ∧ binary32 x ≤ (⌈x⌉ : ℚ) := by
  obtain ⟨k, hk⟩ := ulp_eq_inv_pow h
  have hpow : (0 : ℚ) < 2 ^ k := by positivity
  unfold binary32
  rw [hk, div_inv_eq_mul]
  constructor
  · have h1 : ⌊x⌋ * 2 ^ k ≤ ⌊x * 2 ^ k⌋ := by
      apply Int.le_floor.mpr
      push_cast
      exact mul_le_mul_of_nonneg_right (Int.floor_le x) hpow.le
    have h2 : ⌊x⌋ * 2 ^ k ≤ roundHalfEven (x * 2 ^ k) :=
      le_trans h1 (floor_le_roundHalfEven _)
    have h3 : ((⌊x⌋ * 2 ^ k : Int) : ℚ) ≤ (roundHalfEven (x * 2 ^ k) : ℚ) := by
      exact_mod_cast h2
    push_cast at h3
    rw [le_mul_inv_iff₀ hpow]
    exact h3
  · have h1 : ⌈x * 2 ^ k⌉ ≤ ⌈x⌉ * 2 ^ k := by
      apply Int.ceil_le.mpr
      push_cast
      exact mul_le_mul_of_nonneg_right (Int.le_ceil x) hpow.le
    have h2 : roundHalfEven (x * 2 ^ k) ≤ ⌈x⌉ * 2 ^ k :=
      le_trans (roundHalfEven_le_ceil _) h1
    have h3 : (roundHalfEven (x * 2 ^ k) : ℚ) ≤ ((⌈x⌉ * 2 ^ k : Int) : ℚ) := by
      exact_mod_cast h2
    push_cast at h3
    rw [mul_inv_le_iff₀ hpow]
    exact h3

theorem binary32_intCast (n : Int) (h : |(n : ℚ)| < 16777216) : binary32 (n : ℚ) = n := by
  have hb := binary32_bracket h
  rw [Int.floor_intCast, Int.ceil_intCast] at hb
  exact le_antisymm hb.2 hb.1

theorem binary32_eval {x : ℚ} (e : Int) (hlo : (2 : ℚ) ^ e ≤ |x|)
    (hhi : |x| < (2 : ℚ) ^ (e + 1)) (he : -126 ≤ e) :
    binary32 x = (roundHalfEven (x / 2 ^ (e - 23)) : ℚ) * 2 ^ (e - 23) := by
  unfold binary32 ulp
  rw [binade_of_bounds hlo hhi he]

theorem binary32_zero : binary32 0 = 0 := by
  simpa using binary32_intCast 0 (by norm_num)

/-- The `float` sum the cast of QUANTIZE INPUTS truncates lies, after truncation, between
the floor and the ceiling of the exact `v / scale + zero_point`. -/
theorem truncToZero_float_sum_bracket (v : ℚ) (params : TfLiteQuantizationParams)
    (hz : isInt8 params.zero_point)
    (hlo : -128 ≤ v / params.scale + (params.zero_point : ℚ))
    (hhi : v / params.scale + (params.zero_point : ℚ) ≤ 127) :
    ⌊v / params.scale + (params.zero_point : ℚ)⌋
        ≤ truncToZero
            (binary32 (binary32 (v / params.scale) + binary32 (params.zero_point : ℚ)))
      ∧ truncToZero
            (binary32 (binary32 (v / params.scale) + binary32 (params.zero_point : ℚ)))
          ≤ ⌈v / params.scale + (params.zero_point : ℚ)⌉ := by
  obtain ⟨hz1, hz2⟩ := hz
  have hz1q : (-128 : ℚ) ≤ (params.zero_point : ℚ) := by exact_mod_cast hz1
  have hz2q : (params.zero_point : ℚ) ≤ 127 := by exact_mod_cast hz2
  have hzp : binary32 (params.zero_point : ℚ) = params.zero_point :=
    binary32_intCast _ (by rw [abs_lt]; constructor <;> linarith)
  have hx1 : |v / params.scale| < 16777216 := by
    rw [abs_lt]
    constructor <;> linarith
  obtain ⟨b1, b2⟩ := binary32_bracket hx1
  have f1 := Int.lt_floor_add_one (v / params.scale)
  have c1 := Int.ceil_lt_add_one (v / params.scale)
  have hs : |binary32 (v / params.scale) + (params.zero_point : ℚ)| < 16777216 := by
    rw [abs_lt]
    constructor <;> linarith
  obtain ⟨d1, d2⟩ := binary32_bracket hs
  rw [hzp]
  rw [Int.floor_add_int, Int.ceil_add_int]
  rw [Int.floor_add_int] at d1
  rw [Int.ceil_add_int] at d2
  have e1 : ⌊v / params.scale⌋ ≤ ⌊binary32 (v / params.scale)⌋ := Int.le_floor.mpr b1
  have e2 : ⌈binary32 (v / params.scale)⌉ ≤ ⌈v / params.scale⌉ := Int.ceil_le.mpr b2
  apply truncToZero_between
  · refine le_trans ?_ d1
    exact_mod_cast Int.add_le_add_right e1 _
  · refine le_trans d2 ?_
    exact_mod_cast Int.add_le_add_right e2 _

theorem dequantizeOutput_eq (y_q : Int) (params : TfLiteQuantizationParams) :
    dequantizeOutput y_q params
      = min 1 (max 0 ((wrapInt32 (y_q - params.zero_point) : ℚ) * params.scale)) := by
  unfold dequantizeOutput
  simp only
  split_ifs with h1 h2 h3
  · linarith
  · rw [max_eq_left h1.le, min_eq_right (by norm_num)]
  · rw [max_eq_right (not_lt.mp h1), min_eq_left h3.le]
  · rw [max_eq_right (not_lt.mp h1), min_eq_right (not_lt.mp h3)]

theorem runInference_ok (interpreter : MicroInterpreter) (input : TfLiteTensor 5)
    (output : TfLiteTensor 1) (temperature humidity co2 hydrogen pressure : ℚ)
    (hok : (interpreter.Invoke (quantizeInputs
      (applyStandardScaler ![temperature, humidity, co2, hydrogen, pressure]) input)).1
        = kTfLiteOk) :
    runInference ⟨some interpreter, some input, some output⟩
        temperature humidity co2 hydrogen pressure
      = Outcome.predicted
          (applyStandardScaler ![temperature, humidity, co2, hydrogen, pressure])
          (quantizeInputs
            (applyStandardScaler ![temperature, humidity, co2, hydrogen, pressure]) input)
          (predict ((interpreter.Invoke (quantizeInputs
            (applyStandardScaler ![temperature, humidity, co2, hydrogen, pressure])
              input)).2 0) output.params) := by
  simp only [runInference, hok, ne_eq, not_true_eq_false, if_false]

theorem runInference_failed (interpreter : MicroInterpreter) (input : TfLiteTensor 5)
    (output : Option (TfLiteTensor 1)) (temperature humidity co2 hydrogen pressure : ℚ)
    (hbad : (interpreter.Invoke (quantizeInputs
      (applyStandardScaler ![temperature, humidity, co2, hydrogen, pressure]) input)).1
        ≠ kTfLiteOk) :
    runInference ⟨some interpreter, some input, output⟩
        temperature humidity co2 hydrogen pressure
      = Outcome.invokeFailed
          (applyStandardScaler ![temperature, humidity, co2, hydrogen, pressure])
          (quantizeInputs
            (applyStandardScaler ![temperature, humidity, co2, hydrogen, pressure])
              input) := by
  simp only [runInference, hbad, ne_eq, not_false_eq_true, if_true]

theorem runInference_inputData (g : Globals) (input : TfLiteTensor 5)
    (hg : g.input = some input) (temperature humidity co2 hydrogen pressure : ℚ) :
    (runInference g temperature humidity co2 hydrogen pressure).inputData
      = some (quantizeInputs
          (applyStandardScaler ![temperature, humidity, co2, hydrogen, pressure]) input) := by
  unfold runInference
  simp only [hg]
  cases g.interpreter with
  | none => rfl
  | some interpreter =>
    simp only
    split_ifs
    · rfl
    · cases g.output <;> rfl

theorem runInference_scaled_inputs (g : Globals)
    (temperature humidity co2 hydrogen pressure : ℚ) :
    (runInference g temperature humidity co2 hydrogen pressure).scaled_inputs
      = applyStandardScaler ![temperature, humidity, co2, hydrogen, pressure] := by
  unfold runInference
  cases g.input with
  | none => rfl
  | some input =>
    cases g.interpreter with
    | none => rfl
    | some interpreter =>
      simp only
      split_ifs
      · rfl
      · cases g.output <;> rfl

theorem confidenceOf_eq_max (p : ℚ) : confidenceOf p = max p (1 - p) := by
  unfold confidenceOf
  simp only
  split_ifs with h
  · rw [max_eq_left h.le]
  · rw [max_eq_right (not_lt.mp h)]

/-! ## Encode (QUANTIZE INPUTS) -/

/-- C1, as stated, fails: with scale 1 and zero point 0 the standardized value 0.75 is
stored as 0 (the cast discards the fraction), while `round(0.75 / 1) + 0` is 1; both
values are inside the int8 range. -/
theorem quantize_not_round_to_nearest :
    (0 : ℚ) < (TfLiteQuantizationParams.mk 1 0).scale
      ∧ isInt8 (specEncode (3 / 4) ⟨1, 0⟩)
      ∧ quantize (3 / 4) ⟨1, 0⟩ = 0
      ∧ specEncode (3 / 4) ⟨1, 0⟩ = 1
      ∧ quantize (3 / 4) ⟨1, 0⟩ ≠ specEncode (3 / 4) ⟨1, 0⟩ := by
  have h34 : binary32 (3 / 4) = 3 / 4 := by
    rw [binary32_eval (-1) (by norm_num [abs_of_pos]) (by norm_num [abs_of_pos])
      (by norm_num)]
    norm_num [roundHalfEven]
  have hq : quantize (3 / 4) ⟨1, 0⟩ = 0 := by
    unfold quantize
    norm_num [binary32_zero, h34, castInt8, truncToZero, wrapInt8, Int.floor_eq_iff]
  have hs : specEncode (3 / 4) ⟨1, 0⟩ = 1 := by
    norm_num [specEncode, roundNearest, Int.floor_eq_iff]
  refine ⟨by norm_num, ?_, hq, hs, ?_⟩
  · rw [hs]
    decide
  · rw [hq, hs]
    decide

/-- C1, amended: encode truncates toward zero and does not round to nearest. For every
standardized value `v` and input quantization pair with `scale > 0` (which keeps the
division defined), writing `s` for the single-precision sum the code computes for
`v / scale + zero_point` (the `float` quotient plus the zero point converted to `float`,
added in `float`): when the truncation toward zero of `s` lies inside the int8 range, it
is the value the loop body computes and the value QUANTIZE INPUTS stores in slot `i` of
the input buffer, for every array `scaled_inputs` with `scaled_inputs[i] = v`; and when
the zero point is in the int8 domain and the exact `v / scale + zero_point` lies in
`[-128, 127]`, the stored value is the floor or the ceiling of that exact value (between
the two, which are at most one apart). -/
theorem quantize_truncates_toward_zero (v : ℚ) (params : TfLiteQuantizationParams)
    (_hs : 0 < params.scale)
    (hr : isInt8 (truncToZero
      (binary32 (binary32 (v / params.scale) + binary32 (params.zero_point : ℚ))))) :
    quantize v params
        = truncToZero
            (binary32 (binary32 (v / params.scale) + binary32 (params.zero_point : ℚ)))
      ∧ (∀ (scaled_inputs : Fin 5 → ℚ) (input : TfLiteTensor 5) (i : Fin 5),
          input.params = params → scaled_inputs i = v →
          quantizeInputs scaled_inputs input i
            = truncToZero
                (binary32 (binary32 (v / params.scale) + binary32 (params.zero_point : ℚ))))
      ∧ (isInt8 params.zero_point →
          -128 ≤ v / params.scale + (params.zero_point : ℚ) →
          v / params.scale + (params.zero_point : ℚ) ≤ 127 →
          ⌊v / params.scale + (params.zero_point : ℚ)⌋ ≤ quantize v params
            ∧ quantize v params ≤ ⌈v / params.scale + (params.zero_point : ℚ)⌉) := by
  have hq : quantize v params
      = truncToZero
          (binary32 (binary32 (v / params.scale) + binary32 (params.zero_point : ℚ))) := by
    unfold quantize castInt8
    exact wrapInt8_of_isInt8 hr
  refine ⟨hq, ?_, ?_⟩
  · intro scaled_inputs input i hp hv
    rw [quantizeInputs_apply, hv, hp, hq]
  · intro hz hlo hhi
    rw [hq]
    exact truncToZero_float_sum_bracket v params hz hlo hhi

/-- C1, amended, at a concrete input: the value 1 with scale `13421773 / 134217728` (the
`float` nearest to 0.1) and zero point 0. The exact quotient is just below 10, its
single-precision value is 10, and 10 is stored. -/
theorem quantize_truncates_toward_zero_witness :
    (0 : ℚ) < (TfLiteQuantizationParams.mk (13421773 / 134217728) 0).scale
      ∧ (1 : ℚ) / (13421773 / 134217728) < 10
      ∧ binary32 (1 / (13421773 / 134217728)) = 10
      ∧ isInt8 (truncToZero (binary32 (binary32 ((1 : ℚ) / (13421773 / 134217728))
          + binary32 ((0 : Int) : ℚ))))
      ∧ quantize 1 ⟨13421773 / 134217728, 0⟩ = 10 := by
  have hdiv : binary32 (1 / (13421773 / 134217728)) = 10 := by
    rw [binary32_eval 3 (by norm_num [abs_of_pos]) (by norm_num [abs_of_pos])
      (by norm_num)]
    have hf : ⌊(1 / (13421773 / 134217728) / 2 ^ ((3 : Int) - 23) : ℚ)⌋ = 10485759 := by
      rw [Int.floor_eq_iff]
      norm_num
    have hround :
        roundHalfEven (1 / (13421773 / 134217728) / 2 ^ ((3 : Int) - 23)) = 10485760 := by
      unfold roundHalfEven
      rw [hf]
      norm_num
    rw [hround]
    norm_num
  have h10 : binary32 10 = 10 := by
    simpa using binary32_intCast 10 (by norm_num)
  have ht : truncToZero (binary32 (binary32 ((1 : ℚ) / (13421773 / 134217728))
      + binary32 ((0 : Int) : ℚ))) = 10 := by
    rw [hdiv, Int.cast_zero, binary32_zero, add_zero, h10]
    norm_num [truncToZero]
  have hr : isInt8 (truncToZero (binary32 (binary32 ((1 : ℚ) / (13421773 / 134217728))
      + binary32 ((0 : Int) : ℚ)))) := by
    rw [ht]
    decide
  refine ⟨by norm_num, by norm_num, hdiv, hr, ?_⟩
  rw [(quantize_truncates_toward_zero 1 ⟨13421773 / 134217728, 0⟩ (by norm_num) hr).1]
  exact ht

/-- C2, evaluated on the code: the standardized value 25 with scale 0.125 and zero point 0
computes to 200, above 127, and the value stored is -56, not 127; the reading
`temperature = 77` standardizes to 25 and `runInference` leaves -56 in slot 0 of the
input buffer. -/
theorem quantize_wraps_instead_of_saturating :
    (25 : ℚ) / (TfLiteQuantizationParams.mk (1 / 8) 0).scale
        + ((TfLiteQuantizationParams.mk (1 / 8) 0).zero_point : ℚ) = 200
      ∧ quantize 25 ⟨1 / 8, 0⟩ = -56
      ∧ quantize 25 ⟨1 / 8, 0⟩ ≠ 127
      ∧ applyStandardScaler ![77, 52.3, 405, 0.012, 1010.5] 0 = 25
      ∧ (runInference ⟨none, some ⟨⟨1 / 8, 0⟩, fun _ => 0⟩, none⟩
            77 52.3 405 0.012 1010.5).inputData.map (fun data => data 0) = some (-56) := by
  have h200 : binary32 200 = 200 := by
    simpa using binary32_intCast 200 (by norm_num)
  have hq : quantize 25 ⟨1 / 8, 0⟩ = -56 := by
    unfold quantize
    norm_num [binary32_zero, h200, castInt8, truncToZero, wrapInt8]
  have hv : applyStandardScaler ![77, 52.3, 405, 0.012, 1010.5] 0 = 25 := by
    rw [applyStandardScaler_apply]
    norm_num [mean, std_dev]
  refine ⟨by norm_num, hq, ?_, hv, ?_⟩
  · rw [hq]
    decide
  · rw [runInference_inputData _ ⟨⟨1 / 8, 0⟩, fun _ => 0⟩ rfl]
    simp only [Option.map_some', quantizeInputs_apply, hv, hq]

/-! ## Decode (DEQUANTIZE OUTPUT) -/

/-- C3: decode is the clamped affine map. For every int8 output value `y_q` and every
output quantization pair whose zero point lies in the int8 domain, the fire probability
is `min 1 (max 0 ((y_q - zero_point) * scale))`; it lies in `[0, 1]`; it equals
`(y_q - zero_point) * scale` exactly when that value is in `[0, 1]`; and it is the
probability `runInference` reports after a successful `Invoke` that left `y_q` in the
output buffer. -/
theorem dequantizeOutput_clamped_affine (y_q : Int) (params : TfLiteQuantizationParams)
    (hy : isInt8 y_q) (hz : isInt8 params.zero_point) :
    dequantizeOutput y_q params
        = min 1 (max 0 (((y_q - params.zero_point : Int) : ℚ) * params.scale))
      ∧ 0 ≤ dequantizeOutput y_q params
      ∧ dequantizeOutput y_q params ≤ 1
      ∧ (dequantizeOutput y_q params = ((y_q - params.zero_point : Int) : ℚ) * params.scale
          ↔ 0 ≤ ((y_q - params.zero_point : Int) : ℚ) * params.scale
            ∧ ((y_q - params.zero_point : Int) : ℚ) * params.scale ≤ 1)
      ∧ ∀ (interpreter : MicroInterpreter) (input : TfLiteTensor 5)
          (output : TfLiteTensor 1) (temperature humidity co2 hydrogen pressure : ℚ),
          output.params = params →
          interpreter.Invoke (quantizeInputs
            (applyStandardScaler ![temperature, humidity, co2, hydrogen, pressure]) input)
              = (kTfLiteOk, fun _ => y_q) →
          (runInference ⟨some interpreter, some input, some output⟩
              temperature humidity co2 hydrogen pressure).prediction.map
                Prediction.fire_probability
            = some (min 1 (max 0 (((y_q - params.zero_point : Int) : ℚ) * params.scale))) := by
  have he : dequantizeOutput y_q params
      = min 1 (max 0 (((y_q - params.zero_point : Int) : ℚ) * params.scale)) := by
    rw [dequantizeOutput_eq, wrapInt32_sub_of_isInt8 hy hz]
  refine ⟨he, ?_, ?_, ?_, ?_⟩
  · rw [he]
    exact le_min (by norm_num) (le_max_left _ _)
  · rw [he]
    exact min_le_left _ _
  · rw [he]
    constructor
    · intro h
      rw [← h]
      exact ⟨le_min (by norm_num) (le_max_left _ _), min_le_left _ _⟩
    · rintro ⟨h0, h1⟩
      rw [max_eq_right h0, min_eq_right h1]
  · intro interpreter input output temperature humidity co2 hydrogen pressure hp hinv
    rw [runInference_ok interpreter input output temperature humidity co2 hydrogen pressure
      (by rw [hinv])]
    simp only [Outcome.prediction, Option.map_some', predict, hinv, hp, he]

/-- C3 at a concrete input: output value -13 with scale 1/256 and zero point -128 decodes
to 115/256. -/
theorem dequantizeOutput_clamped_affine_witness :
    isInt8 (-13) ∧ isInt8 (TfLiteQuantizationParams.mk (1 / 256) (-128)).zero_point
      ∧ dequantizeOutput (-13) ⟨1 / 256, -128⟩ = 115 / 256 := by
  refine ⟨by decide, by decide, ?_⟩
  rw [(dequantizeOutput_clamped_affine (-13) ⟨1 / 256, -128⟩ (by decide) (by decide)).1]
  norm_num

/-! ## Decision (DETECTION RESULT) -/

/-- C4: the decision uses a strict threshold. For every probability `p` and threshold `t`
the result is FIRE if and only if `p > t` and NO_FIRE otherwise; `p = t = 0.45` gives
NO_FIRE and `p = 0.450001` against `0.45` gives FIRE; the threshold `runInference`
compares with is `fire_threshold = 0.45`. -/
theorem detectionResult_strict_threshold (p t : ℚ) :
    (detectionResult p t = Detection.FIRE ↔ p > t)
      ∧ (detectionResult p t = Detection.NO_FIRE ↔ ¬ p > t)
      ∧ detectionResult 0.45 0.45 = Detection.NO_FIRE
      ∧ detectionResult 0.450001 0.45 = Detection.FIRE
      ∧ fire_threshold = 0.45
      ∧ ∀ (y_q : Int) (params : TfLiteQuantizationParams),
          (predict y_q params).result
            = detectionResult (predict y_q params).fire_probability fire_threshold := by
  refine ⟨?_, ?_, ?_, ?_, rfl, fun _ _ => rfl⟩
  · unfold detectionResult
    split_ifs with h <;> simp [h]
  · unfold detectionResult
    split_ifs with h <;> simp [h]
  · unfold detectionResult
    norm_num
  · unfold detectionResult
    norm_num

/-! ## Failure of `Invoke` -/

/-- C5: a failed engine invocation aborts the cycle. For every sensor input, `Invoke`
answers a non-success status exactly when `runInference` stops with the failure report,
which carries no probability, confidence or decision and is the same whatever the output
buffer and the output tensor hold; and a prediction is produced exactly when `Invoke`
answers `kTfLiteOk`. -/
theorem runInference_aborts_on_invoke_failure (interpreter : MicroInterpreter)
    (input : TfLiteTensor 5) (output : TfLiteTensor 1)
    (temperature humidity co2 hydrogen pressure : ℚ) :
    ((interpreter.Invoke (quantizeInputs
          (applyStandardScaler ![temperature, humidity, co2, hydrogen, pressure]) input)).1
        ≠ kTfLiteOk
      ↔ runInference ⟨some interpreter, some input, some output⟩
            temperature humidity co2 hydrogen pressure
          = Outcome.invokeFailed
              (applyStandardScaler ![temperature, humidity, co2, hydrogen, pressure])
              (quantizeInputs
                (applyStandardScaler ![temperature, humidity, co2, hydrogen, pressure])
                  input))
      ∧ ((interpreter.Invoke (quantizeInputs
            (applyStandardScaler ![temperature, humidity, co2, hydrogen, pressure]) input)).1
          ≠ kTfLiteOk
        ↔ (runInference ⟨some interpreter, some input, some output⟩
            temperature humidity co2 hydrogen pressure).prediction = none)
      ∧ ((interpreter.Invoke (quantizeInputs
            (applyStandardScaler ![temperature, humidity, co2, hydrogen, pressure]) input)).1
          = kTfLiteOk
        ↔ ∃ p, (runInference ⟨some interpreter, some input, some output⟩
            temperature humidity co2 hydrogen pressure).prediction = some p)
      ∧ ∀ (other : MicroInterpreter) (stale : Option (TfLiteTensor 1)),
          (interpreter.Invoke (quantizeInputs
            (applyStandardScaler ![temperature, humidity, co2, hydrogen, pressure]) input)).1
              ≠ kTfLiteOk →
          (other.Invoke (quantizeInputs
            (applyStandardScaler ![temperature, humidity, co2, hydrogen, pressure]) input)).1
              ≠ kTfLiteOk →
          runInference ⟨some other, some input, stale⟩
              temperature humidity co2 hydrogen pressure
            = runInference ⟨some interpreter, some input, some output⟩
              temperature humidity co2 hydrogen pressure := by
  by_cases hok : (interpreter.Invoke (quantizeInputs
      (applyStandardScaler ![temperature, humidity, co2, hydrogen, pressure]) input)).1
        = kTfLiteOk
  · rw [runInference_ok interpreter input output temperature humidity co2 hydrogen pressure hok]
    refine ⟨?_, ?_, ?_, ?_⟩
    · simp [hok]
    · simp [hok, Outcome.prediction]
    · simp [hok, Outcome.prediction]
    · intro other stale h
      exact absurd hok h
  · rw [runInference_failed interpreter input (some output)
      temperature humidity co2 hydrogen pressure hok]
    refine ⟨?_, ?_, ?_, ?_⟩
    · simp [hok]
    · simp [hok, Outcome.prediction]
    · simp [hok, Outcome.prediction]
    · intro other stale _ h
      exact runInference_failed other input stale temperature humidity co2 hydrogen pressure h

/-! ## Round trip -/

/-- C7: standardization is the per-feature affine map with no clamping. For every reading
(temperature, humidity, CO2, hydrogen, pressure) and every index `i`, the standardized
value, as the scaler loop computes it and as every call of `runInference` holds it, is
`(raw[i] - mean[i]) / std_dev[i]`, with `mean = [24.5, 52.3, 405.0, 0.012, 1010.5]` and
`std_dev = [2.1, 5.0, 50.0, 0.005, 10.0]`, every `std_dev[i]` being non-zero. -/
theorem applyStandardScaler_affine (temperature humidity co2 hydrogen pressure : ℚ)
    (i : Fin 5) :
    applyStandardScaler ![temperature, humidity, co2, hydrogen, pressure] i
        = (![temperature, humidity, co2, hydrogen, pressure] i - mean i) / std_dev i
      ∧ (∀ g : Globals,
          (runInference g temperature humidity co2 hydrogen pressure).scaled_inputs i
            = (![temperature, humidity, co2, hydrogen, pressure] i
                - ![(24.5 : ℚ), 52.3, 405.0, 0.012, 1010.5] i)
              / ![(2.1 : ℚ), 5.0, 50.0, 0.005, 10.0] i)
      ∧ mean = ![24.5, 52.3, 405.0, 0.012, 1010.5]
      ∧ std_dev = ![2.1, 5.0, 50.0, 0.005, 10.0]
      ∧ ∀ j : Fin 5, std_dev j ≠ 0 := by
  refine ⟨applyStandardScaler_apply _ i, ?_, rfl, rfl, ?_⟩
  · intro g
    rw [runInference_scaled_inputs, applyStandardScaler_apply]
    rfl
  · intro j
    fin_cases j <;> norm_num [std_dev]

/-! ## Confidence (CALCULATE ADDITIONAL METRICS) -/

/-- C8: confidence invariant. For every output value and output quantization pair, the
fire probability `p` that decode produces lies in `[0, 1]`, the confidence computed from it
equals `max p (1 - p)` and lies in `[0.5, 1]`, and the decision is the threshold test on
`p` alone, in which the confidence does not occur. -/
theorem confidence_invariant (y_q : Int) (params : TfLiteQuantizationParams) :
    0 ≤ (predict y_q params).fire_probability
      ∧ (predict y_q params).fire_probability ≤ 1
      ∧ (predict y_q params).confidence
          = max (predict y_q params).fire_probability
              (1 - (predict y_q params).fire_probability)
      ∧ 1 / 2 ≤ (predict y_q params).confidence
      ∧ (predict y_q params).confidence ≤ 1
      ∧ (predict y_q params).result
          = detectionResult (predict y_q params).fire_probability fire_threshold := by
  have h0 : 0 ≤ dequantizeOutput y_q params := by
    rw [dequantizeOutput_eq]
    exact le_min (by norm_num) (le_max_left _ _)
  have h1 : dequantizeOutput y_q params ≤ 1 := by
    rw [dequantizeOutput_eq]
    exact min_le_left _ _
  have hc := confidenceOf_eq_max (dequantizeOutput y_q params)
  refine ⟨h0, h1, hc, ?_, ?_, rfl⟩
  · show 1 / 2 ≤ confidenceOf (dequantizeOutput y_q params)
    rw [hc]
    by_cases h : dequantizeOutput y_q params ≤ 1 / 2
    · exact le_trans (by linarith) (le_max_right _ _)
    · exact le_trans (not_le.mp h).le (le_max_left _ _)
  · show confidenceOf (dequantizeOutput y_q params) ≤ 1
    rw [hc]
    exact max_le h1 (by linarith)

/-! ## End-to-end scenario -/

/-- C10: the extreme scenario. The reading (80.0, 15.0, 1200.0, 0.30, 990.0), which is
the fourth call of `loop`, standardizes to `[555/21, -7.46, 15.9, 57.6, -2.05]`; and for
every output quantization pair with zero point in the int8 domain and every int8 engine
output `y_q` with `(y_q - zero_point) * scale = 0.92`, a successful `Invoke` leaving `y_q`
in the output buffer makes `runInference` report probability 0.92, confidence 0.92 and
the decision FIRE. -/
theorem extreme_scenario (interpreter : MicroInterpreter) (input : TfLiteTensor 5)
    (output : TfLiteTensor 1) (y_q : Int) (hy : isInt8 y_q)
    (hz : isInt8 output.params.zero_point)
    (h92 : ((y_q - output.params.zero_point : Int) : ℚ) * output.params.scale = 0.92)
    (hinv : interpreter.Invoke (quantizeInputs
      (applyStandardScaler ![80.0, 15.0, 1200.0, 0.30, 990.0]) input)
        = (kTfLiteOk, fun _ => y_q)) :
    applyStandardScaler ![80.0, 15.0, 1200.0, 0.30, 990.0]
        = ![555 / 21, -7.46, 15.9, 57.6, -2.05]
      ∧ (loop ⟨some interpreter, some input, some output⟩).get? 3
          = some (runInference ⟨some interpreter, some input, some output⟩
              80.0 15.0 1200.0 0.30 990.0)
      ∧ (runInference ⟨some interpreter, some input, some output⟩
            80.0 15.0 1200.0 0.30 990.0).prediction
          = some ⟨0.92, 1 - 0.92, 0.92, Detection.FIRE⟩ := by
  have hd : dequantizeOutput y_q output.params = 0.92 := by
    rw [dequantizeOutput_eq, wrapInt32_sub_of_isInt8 hy hz, h92]
    norm_num
  refine ⟨?_, rfl, ?_⟩
  · funext i
    rw [applyStandardScaler_apply]
    fin_cases i <;> norm_num [mean, std_dev]
  · rw [runInference_ok interpreter input output 80.0 15.0 1200.0 0.30 990.0 (by rw [hinv])]
    simp only [Outcome.prediction, predict, hinv, hd]
    have hc : confidenceOf 0.92 = 0.92 := by
      rw [confidenceOf_eq_max]
      norm_num
    have hr : detectionResult 0.92 fire_threshold = Detection.FIRE := by
      unfold detectionResult fire_threshold
      norm_num
    rw [hc, hr]

/-- C10 at a concrete engine: a stub that always succeeds and leaves 102 in the output
buffer, with output scale 1/250 and zero point -128 (so `(102 + 128) / 250 = 0.92`). -/
theorem extreme_scenario_witness :
    isInt8 102 ∧ isInt8 (-128)
      ∧ (((102 - (-128) : Int) : ℚ) * (1 / 250) = 0.92)
      ∧ (runInference
            ⟨some ⟨kTfLiteOk, ⟨⟨1 / 8, 0⟩, fun _ => 0⟩, ⟨⟨1 / 250, -128⟩, fun _ => 0⟩,
                fun _ => (kTfLiteOk, fun _ => 102)⟩,
              some ⟨⟨1 / 8, 0⟩, fun _ => 0⟩, some ⟨⟨1 / 250, -128⟩, fun _ => 0⟩⟩
            80.0 15.0 1200.0 0.30 990.0).prediction
          = some ⟨0.92, 1 - 0.92, 0.92, Detection.FIRE⟩ :=
  ⟨by decide, by decide, by norm_num,
    (extreme_scenario
      ⟨kTfLiteOk, ⟨⟨1 / 8, 0⟩, fun _ => 0⟩, ⟨⟨1 / 250, -128⟩, fun _ => 0⟩,
        fun _ => (kTfLiteOk, fun _ => 102)⟩
      ⟨⟨1 / 8, 0⟩, fun _ => 0⟩ ⟨⟨1 / 250, -128⟩, fun _ => 0⟩ 102
      (by decide) (by decide) (by norm_num) rfl).2.2⟩

/-! ## Failed setup -/

/-- C9, evaluated on the code: after a failed `setup` the first pass of `loop` still calls
`runInference` six times. With a model whose schema version is not
`TFLITE_SCHEMA_VERSION`, and likewise with an interpreter whose `AllocateTensors` fails,
`input` is left null, and every one of the six calls standardizes its reading and executes
QUANTIZE INPUTS on the null pointer: the inference cycles are run, unguarded, and their
behaviour from that statement on is undefined. -/
theorem loop_runs_after_failed_setup (static_interpreter : MicroInterpreter) :
    (setup ⟨TFLITE_SCHEMA_VERSION + 1⟩ static_interpreter).input = none
      ∧ program ⟨TFLITE_SCHEMA_VERSION + 1⟩ static_interpreter 1
          = [ Outcome.nullInput (applyStandardScaler ![20.0, 45.0, 380.0, 0.008, 1013.0]),
              Outcome.nullInput (applyStandardScaler ![45.0, 30.0, 450.0, 0.05, 1010.0]),
              Outcome.nullInput (applyStandardScaler ![35.0, 60.0, 800.0, 0.15, 1008.0]),
              Outcome.nullInput (applyStandardScaler ![80.0, 15.0, 1200.0, 0.30, 990.0]),
              Outcome.nullInput (applyStandardScaler ![5.0, 80.0, 350.0, 0.002, 1020.0]),
              Outcome.nullInput (applyStandardScaler ![32.0, 55.0, 550.0, 0.08, 1012.0]) ]
      ∧ (setup ⟨TFLITE_SCHEMA_VERSION⟩
          ⟨kTfLiteError, static_interpreter.input0, static_interpreter.output0,
            static_interpreter.Invoke⟩).input = none
      ∧ program ⟨TFLITE_SCHEMA_VERSION⟩
          ⟨kTfLiteError, static_interpreter.input0, static_interpreter.output0,
            static_interpreter.Invoke⟩ 1
          = [ Outcome.nullInput (applyStandardScaler ![20.0, 45.0, 380.0, 0.008, 1013.0]),
              Outcome.nullInput (applyStandardScaler ![45.0, 30.0, 450.0, 0.05, 1010.0]),
              Outcome.nullInput (applyStandardScaler ![35.0, 60.0, 800.0, 0.15, 1008.0]),
              Outcome.nullInput (applyStandardScaler ![80.0, 15.0, 1200.0, 0.30, 990.0]),
              Outcome.nullInput (applyStandardScaler ![5.0, 80.0, 350.0, 0.002, 1020.0]),
              Outcome.nullInput (applyStandardScaler ![32.0, 55.0, 550.0, 0.08, 1012.0]) ] := by
  refine ⟨rfl, rfl, rfl, rfl⟩

end FireDetection
